import Mathlib

/-!
Verification of the homework-status polling bot (`homework.py`).

The source is a single Python module. We embed its decision logic shallowly:
decoded JSON payloads become the inductive `PyVal`; Python exceptions become
the inductive `Exc`; each source function becomes a Lean function returning
`Except Exc _`; the body of one iteration of the `while True` loop in `main`
becomes the step function `mainCycle` over an explicit `LoopState`, with the
nondeterministic environment (HTTP outcome, messaging-client outcomes) passed
in as a `CycleEnv` record.  Logging is modelled as a list of
(severity, message) pairs, and notifier invocations are recorded as the list
of texts passed to `send_message`.
-/

/-- Decoded JSON-ish Python values as seen by the bot: strings, integers,
lists, string-keyed mappings, and `None`. -/
inductive PyVal : Type where
  | str (s : String)
  | int (n : Int)
  | list (xs : List PyVal)
  | dict (kvs : List (String × PyVal))
  | none
deriving Inhabited

/-- Python truthiness (`if not x`): `None`, the empty string, zero, the empty
list and the empty dict are falsy. -/
def pyFalsy : PyVal → Bool
  | .none => true
  | .str s => s = ""
  | .int n => n = 0
  | .list xs => xs.isEmpty
  | .dict kvs => kvs.isEmpty

/-- Python `dict.get(k)`: the first value bound to `k`, `None` when absent. -/
def dictGet (kvs : List (String × PyVal)) (k : String) : PyVal :=
  match kvs with
  | [] => .none
  | (k2, v) :: rest => if k2 = k then v else dictGet rest k

/-- Python `k in d`: whether the key is present. -/
def dictContains (kvs : List (String × PyVal)) (k : String) : Bool :=
  match kvs with
  | [] => false
  | (k2, _) :: rest => k2 = k || dictContains rest k

/-- Python `type(x)` rendered as in an f-string. -/
def pyType : PyVal → String
  | .str _ => "<class \x27str\x27>"
  | .int _ => "<class \x27int\x27>"
  | .list _ => "<class \x27list\x27>"
  | .dict _ => "<class \x27dict\x27>"
  | .none => "<class \x27NoneType\x27>"

/-- The bare Python type name, as it appears in `AttributeError` messages. -/
def pyTypeName : PyVal → String
  | .str _ => "str"
  | .int _ => "int"
  | .list _ => "list"
  | .dict _ => "dict"
  | .none => "NoneType"

mutual
/-- Python `str(x)` as used in f-string interpolation: a bare string for
`str`, decimal for `int`, `None` for `None`, `repr` for containers. -/
def pyStr : PyVal → String
  | .str s => s
  | .int n => toString n
  | .none => "None"
  | .list xs => "[" ++ String.intercalate ", " (pyReprList xs) ++ "]"
  | .dict kvs => "\x7b" ++ String.intercalate ", " (pyReprDict kvs) ++ "\x7d"

/-- Python `repr(x)`: like `pyStr` but strings are quoted. -/
def pyRepr : PyVal → String
  | .str s => "\x27" ++ s ++ "\x27"
  | v => pyStr v

/-- Helper rendering a list of values by `repr`. -/
def pyReprList : List PyVal → List String
  | [] => []
  | v :: rest => pyRepr v :: pyReprList rest

/-- Helper rendering dict items by `repr`. -/
def pyReprDict : List (String × PyVal) → List String
  | [] => []
  | (k, v) :: rest => ("\x27" ++ k ++ "\x27: " ++ pyRepr v) :: pyReprDict rest
end

/-- The exception kinds the module raises, catches or lets propagate.
`connectionError`, `typeError` and `keyError` are the Python builtins;
`telegramError` is the external messaging client's failure type;
`requestException` is the transport library's failure type;
`botError` and `dateError` are the module's own kinds (their classes live in
the sibling `exceptions` module; every behaviour proved here is decided by
the explicit `raise`/`except` clauses of `homework.py` itself).
`otherError` stands for any further unexpected exception.  The optional
`cause` field models `raise ... from err`. -/
inductive Exc : Type where
  | connectionError (msg : String) (cause : Option Exc)
  | typeError (msg : String)
  | keyError (msg : String)
  | dateError (msg : String)
  | botError (msg : String) (cause : Option Exc)
  | telegramError (msg : String)
  | requestException (msg : String)
  | otherError (msg : String)
deriving Inhabited

/-- Python `str(e)` for the exceptions above: the stored message, except that
`KeyError` renders the `repr` of its argument (a CPython quirk). -/
def excStr : Exc → String
  | .connectionError m _ => m
  | .typeError m => m
  | .keyError m => "\x27" ++ m ++ "\x27"
  | .dateError m => m
  | .botError m _ => m
  | .telegramError m => m
  | .requestException m => m
  | .otherError m => m

/-- Whether an exception is of the `BotError` kind. -/
def isBotErrorExc : Exc → Bool
  | .botError _ _ => true
  | _ => false

/-- Whether an exception is of the `DateError` kind. -/
def isDateErrorExc : Exc → Bool
  | .dateError _ => true
  | _ => false

/-- Whether an exception is of the `KeyError` kind. -/
def isKeyErrorExc : Exc → Bool
  | .keyError _ => true
  | _ => false

/-- Exceptions caught by the first `except (BotError, DateError)` clause of
`main`: logged only, never notified. -/
def isSilent (e : Exc) : Bool :=
  isBotErrorExc e || isDateErrorExc e

/-- Log severities used by the module. -/
inductive LogLevel : Type where
  | info
  | error
  | critical
deriving DecidableEq, Inhabited

/-- The fixed API endpoint URL (`ENDPOINT`). -/
def ENDPOINT : String :=
  "https://practicum.yandex.ru/api/user_api/homework_statuses/"

/-- The polling interval in seconds (`RETRY_TIME`). -/
def RETRY_TIME : Int := 600

/-- The closed status catalog (`HOMEWORK_STATUSES`), in source order. -/
def HOMEWORK_STATUSES : List (String × String) :=
  [("approved", "Работа проверена: ревьюеру всё понравилось. Ура!"),
   ("reviewing", "Работа взята на проверку ревьюером."),
   ("rejected", "Работа проверена: у ревьюера есть замечания.")]

/-- Lookup in an association list of strings (Python `dict.get` on
`HOMEWORK_STATUSES`). -/
def assocGet (kvs : List (String × String)) (k : String) : Option String :=
  match kvs with
  | [] => Option.none
  | (k2, v) :: rest => if k2 = k then Option.some v else assocGet rest k

/-- Python `x in HOMEWORK_STATUSES`: key membership.  Hashable non-string
values (`None`, numbers) are simply not among the string keys; an
unhashable value (a list or a dict) makes the membership test itself raise
`TypeError: unhashable type`. -/
def statusInCatalog (v : PyVal) : Except Exc Bool :=
  match v with
  | .str s => .ok (assocGet HOMEWORK_STATUSES s).isSome
  | .int _ => .ok false
  | .none => .ok false
  | .list _ => .error (.typeError "unhashable type: \x27list\x27")
  | .dict _ => .error (.typeError "unhashable type: \x27dict\x27")

/-- The verdict an f-string would interpolate for a status value:
the catalog entry, or `None` rendered when absent (unreachable after the
membership guard). -/
def verdictOf (v : PyVal) : String :=
  match v with
  | .str s => (assocGet HOMEWORK_STATUSES s).getD "None"
  | _ => "None"

/-- Outcome of the messaging client's `bot.send_message` call, supplied by
the environment: success, or a raised exception. -/
def SendOutcome : Type := Except Exc Unit

/-- `send_message(bot, message)`: delegates to the client; a `TelegramError`
is wrapped into `BotError` carrying the message text and the cause; any
other exception propagates unchanged; on success an info line is logged.
Returns the log entries emitted. -/
def send_message (outcome : SendOutcome) (message : String) :
    Except Exc (List (LogLevel × String)) :=
  match outcome with
  | .ok _ => .ok [(.info, "Сообщение [" ++ message ++ "] отправлено")]
  | .error (.telegramError m) =>
      .error (.botError ("Ошибка при отправке сообщения [" ++ message ++ "]")
        (Option.some (.telegramError m)))
  | .error e => .error e

/-- Outcome of `requests.get`, supplied by the environment: a transport
exception, or an HTTP response with a status code and decoded JSON body. -/
inductive FetchOutcome : Type where
  | exc (msg : String)
  | resp (status_code : Int) (body : PyVal)

/-- `get_api_answer(current_timestamp)`: transport failures and non-200
statuses become `ConnectionError`; a 200 response yields the parsed body. -/
def get_api_answer (current_timestamp : Int) (outcome : FetchOutcome) :
    Except Exc PyVal :=
  match outcome with
  | .exc m =>
      .error (.connectionError
        ("Отсутствует доступ к эндпоинту " ++ ENDPOINT ++ " Ошибка: " ++ m)
        (Option.some (.requestException m)))
  | .resp status_code body =>
      if status_code ≠ 200 then
        .error (.connectionError
          ("Статус эндпоинта " ++ ENDPOINT ++ " отличен от 200" ++
           "Статус " ++ toString status_code)
          Option.none)
      else .ok body

/-- `check_response(response)`: rejects non-dict bodies with `TypeError`,
a missing `current_date` key with `DateError`, a missing `homeworks` key
with `KeyError`, a non-list `homeworks` value with `TypeError`; otherwise
returns the `homeworks` list unchanged. -/
def check_response (response : PyVal) : Except Exc (List PyVal) :=
  match response with
  | .dict kvs =>
      let homeworks := dictGet kvs "homeworks"
      if ¬ dictContains kvs "current_date" then
        .error (.dateError "Ключа current_date нет в полученных данных")
      else if ¬ dictContains kvs "homeworks" then
        .error (.keyError "Ключа homeworks нет в полученных данных")
      else
        match homeworks with
        | .list xs => .ok xs
        | v =>
            .error (.typeError
              ("Ошибка в типе данных домашних заданий " ++
               "Тип данных: " ++ pyType v))
  | v =>
      .error (.typeError
        ("Ошибка в типе полученных данных " ++ "Тип данных: " ++ pyType v))

/-- `parse_status(homework)`: a falsy `homework_name` raises `KeyError`;
then the membership test `status not in HOMEWORK_STATUSES` runs — it
raises `TypeError` for an unhashable status value, a hashable status
outside the catalog raises `KeyError` embedding the offending value, and
otherwise the formatted notification sentence is returned.  A non-dict
argument raises `AttributeError` at the `.get` call. -/
def parse_status (homework : PyVal) : Except Exc String :=
  match homework with
  | .dict kvs =>
      let homework_name := dictGet kvs "homework_name"
      let homework_status := dictGet kvs "status"
      if pyFalsy homework_name then
        .error (.keyError "Отсутствует ключ homework_name")
      else
        match statusInCatalog homework_status with
        | .error e => .error e
        | .ok false =>
            .error (.keyError
              ("Получен неожиданный статус работы: " ++
               pyStr homework_status))
        | .ok true =>
            .ok ("Изменился статус проверки работы \"" ++
                 pyStr homework_name ++ "\". " ++ verdictOf homework_status)
  | v =>
      .error (.otherError
        ("\x27" ++ pyTypeName v ++
         "\x27 object has no attribute \x27get\x27"))

/-- The loop driver's mutable state: the poll cursor `current_timestamp`
and the deduplication cache `error_cache` (initially the empty string). -/
structure LoopState : Type where
  current_timestamp : Int
  error_cache : String
deriving Inhabited

/-- One cycle's environment: the HTTP outcome and the messaging-client
outcomes for the (at most one) notifier call inside the `try` body and the
(at most one) notifier call inside the generic-failure handler. -/
structure CycleEnv : Type where
  fetch : FetchOutcome
  send1 : SendOutcome
  send2 : SendOutcome

/-- Step 4 of the cycle: read `current_date` from the response and overwrite
the cursor when it is an integer, otherwise leave the state unchanged. -/
def advanceCursor (response : PyVal) (st : LoopState) : LoopState :=
  match response with
  | .dict kvs =>
      match dictGet kvs "current_date" with
      | .int n => { st with current_timestamp := n }
      | _ => st
  | _ => st

/-- Result of the `try` body of one cycle: the outcome (new state or raised
exception), the log entries emitted, and the texts passed to the notifier. -/
structure TryResult : Type where
  result : Except Exc LoopState
  logs : List (LogLevel × String)
  calls : List String

/-- The `try` body of one loop iteration: fetch, validate, and when the
homeworks list is non-empty format element 0 and notify; finally advance
the cursor from `current_date`. -/
def tryBody (env : CycleEnv) (st : LoopState) : TryResult :=
  match get_api_answer st.current_timestamp env.fetch with
  | .error e => ⟨.error e, [], []⟩
  | .ok response =>
      match check_response response with
      | .error e => ⟨.error e, [], []⟩
      | .ok homeworks =>
          match homeworks with
          | [] => ⟨.ok (advanceCursor response st), [], []⟩
          | hw :: _ =>
              match parse_status hw with
              | .error e => ⟨.error e, [], []⟩
              | .ok text =>
                  match send_message env.send1 text with
                  | .error e => ⟨.error e, [], [text]⟩
                  | .ok slogs => ⟨.ok (advanceCursor response st), slogs, [text]⟩

/-- The generic-failure message (`Сбой в работе программы: {error}`). -/
def genericMessage (e : Exc) : String :=
  "Сбой в работе программы: " ++ excStr e

/-- Observable outcome of one completed cycle: the state handed to the next
cycle, the logs and notifier calls of the `try` body, and the logs and
notifier calls of the exception handlers. -/
structure CycleOut : Type where
  state : LoopState
  tryLogs : List (LogLevel × String)
  tryCalls : List String
  handlerLogs : List (LogLevel × String)
  handlerCalls : List String

/-- One full iteration of the `while True` loop in `main`.  A `BotError` or
`DateError` is logged and the cycle completes with the state untouched.  Any
other exception is logged as a generic failure; when the message differs
from `error_cache` the notifier is called with it and, on success, the cache
is updated — a failure of that notifier call is not caught and escapes the
loop (`Except.error`), crashing the process. -/
def mainCycle (env : CycleEnv) (st : LoopState) : Except Exc CycleOut :=
  match (tryBody env st).result with
  | .ok st2 =>
      .ok ⟨st2, (tryBody env st).logs, (tryBody env st).calls, [], []⟩
  | .error e =>
      if isSilent e then
        .ok ⟨st, (tryBody env st).logs, (tryBody env st).calls,
             [(.error, excStr e)], []⟩
      else if st.error_cache ≠ genericMessage e then
        match send_message env.send2 (genericMessage e) with
        | .error e2 => .error e2
        | .ok slogs =>
            .ok ⟨{ st with error_cache := genericMessage e },
                 (tryBody env st).logs, (tryBody env st).calls,
                 [(.error, genericMessage e)] ++ slogs, [genericMessage e]⟩
      else
        .ok ⟨st, (tryBody env st).logs, (tryBody env st).calls,
             [(.error, genericMessage e)], []⟩

/-- The three required environment values (`None` when unset). -/
structure Config : Type where
  PRACTICUM_TOKEN : Option String
  TELEGRAM_TOKEN : Option String
  TELEGRAM_CHAT_ID : Option String

/-- Python `if not value` on an environment value: unset or empty. -/
def envFalsy : Option String → Bool
  | Option.none => true
  | Option.some s => s = ""

/-- `check_tokens()`: walks the three variables in source order and returns
`false` with a critical log at the first falsy one; `true` otherwise. -/
def check_tokens (cfg : Config) : Bool × List (LogLevel × String) :=
  if envFalsy cfg.PRACTICUM_TOKEN then
    (false, [(.critical, "Отсутствует переменная окружения PRACTICUM_TOKEN")])
  else if envFalsy cfg.TELEGRAM_TOKEN then
    (false, [(.critical, "Отсутствует переменная окружения TELEGRAM_TOKEN")])
  else if envFalsy cfg.TELEGRAM_CHAT_ID then
    (false, [(.critical, "Отсутствует переменная окружения TELEGRAM_CHAT_ID")])
  else (true, [])

/-- The startup decision of `main`: enter the polling loop exactly when
`check_tokens()` is true; otherwise log a final critical line and halt.
Returns whether the loop is entered and the logs emitted before it. -/
def mainStartup (cfg : Config) : Bool × List (LogLevel × String) :=
  let r := check_tokens cfg
  if r.1 then (true, r.2)
  else (false, r.2 ++ [(.critical, "Работа бота была прервана")])

/-- Substring containment, stated as a concatenation decomposition. -/
def strContains (s sub : String) : Prop :=
  ∃ a b, s = a ++ (sub ++ b)

/-- Concrete cycle environment for exercising a non-200 HTTP response. -/
def c1Env : CycleEnv := ⟨.resp 503 .none, .ok (), .ok ()⟩

/-- Concrete loop state with an empty error cache. -/
def c1St : LoopState := ⟨0, ""⟩

/-- The `ConnectionError` raised on the 503 response of `c1Env`. -/
def c1Exc : Exc :=
  .connectionError
    ("Статус эндпоинта " ++ ENDPOINT ++ " отличен от 200" ++
     "Статус " ++ toString (503 : Int))
    Option.none

/-- The generic failure message built from `c1Exc`. -/
def c1Msg : String := genericMessage c1Exc

/-- The cycle outcome for `c1Env` from `c1St`. -/
def c1Out : CycleOut :=
  ⟨⟨0, c1Msg⟩, [], [],
   [(.error, c1Msg), (.info, "Сообщение [" ++ c1Msg ++ "] отправлено")],
   [c1Msg]⟩

/-- Concrete response payload lacking `current_date`. -/
def c2Kvs : List (String × PyVal) := [("homeworks", .list [])]

/-- Cycle environment fetching the `c2Kvs` payload successfully. -/
def c2Env : CycleEnv := ⟨.resp 200 (.dict c2Kvs), .ok (), .ok ()⟩

/-- Concrete homework record with a valid name and status. -/
def c3Kvs : List (String × PyVal) :=
  [("homework_name", .str "hw1"), ("status", .str "approved")]

/-- Concrete well-formed response with one homework and a `current_date`. -/
def c10Kvs : List (String × PyVal) :=
  [("current_date", .int 99), ("homeworks", .list [.dict c3Kvs])]

/-- Cycle environment whose notifier delivery fails with a `TelegramError`. -/
def c10Env : CycleEnv :=
  ⟨.resp 200 (.dict c10Kvs), .error (.telegramError "down"), .ok ()⟩

/-- Concrete loop state for the `c10Env` scenario. -/
def c10St : LoopState := ⟨7, ""⟩

/-- The notification text formatted from the `c3Kvs` record. -/
def c10Text : String :=
  "Изменился статус проверки работы \"hw1\". " ++
  "Работа проверена: ревьюеру всё понравилось. Ура!"

/-- The `BotError` raised when delivering `c10Text` fails in `c10Env`. -/
def c10Exc : Exc :=
  .botError ("Ошибка при отправке сообщения [" ++ c10Text ++ "]")
    (Option.some (.telegramError "down"))

/-- The cycle outcome for `c10Env` from `c10St`. -/
def c10Out : CycleOut :=
  ⟨c10St, [], [c10Text], [(.error, excStr c10Exc)], []⟩

/-- Concrete loop state for the `c2Env` scenario. -/
def c2St : LoopState := ⟨5, ""⟩

/-- The cycle outcome for `c2Env` from `c2St`. -/
def c2Out : CycleOut :=
  ⟨c2St, [], [], [(.error, "Ключа current_date нет в полученных данных")], []⟩

/-- A key whose lookup is not `None` is present in the dict. -/
theorem dictGet_ne_none_contains (kvs : List (String × PyVal)) (k : String)
    (h : dictGet kvs k ≠ .none) : dictContains kvs k = true := by
  induction kvs with
  | nil => simp [dictGet] at h
  | cons kv rest ih =>
      obtain ⟨k2, v⟩ := kv
      by_cases hk : k2 = k
      · simp [dictContains, hk]
      · rw [dictGet] at h
        rw [if_neg hk] at h
        simp [dictContains, hk, ih h]

/-- When the try body succeeds, the cycle completes with the new state and
empty handler output. -/
theorem mainCycle_ok_spec (env : CycleEnv) (st st2 : LoopState)
    (ht : (tryBody env st).result = .ok st2) :
    mainCycle env st =
      .ok ⟨st2, (tryBody env st).logs, (tryBody env st).calls, [], []⟩ := by
  unfold mainCycle
  rw [ht]

/-- When the try body raises `BotError` or `DateError`, the cycle completes
with the state untouched, one error-severity log, and no notifier call. -/
theorem mainCycle_silent_spec (env : CycleEnv) (st : LoopState) (e : Exc)
    (ht : (tryBody env st).result = .error e) (hs : isSilent e = true) :
    mainCycle env st =
      .ok ⟨st, (tryBody env st).logs, (tryBody env st).calls,
        [(.error, excStr e)], []⟩ := by
  unfold mainCycle
  rw [ht]
  simp [hs]

/-- When the try body raises a generic exception, the handler's behaviour is
decided by the error cache: an identical cached message suppresses the
notification; a differing message triggers one notifier call, after which
the cache holds the new message — unless that call itself fails, in which
case the exception escapes the loop. -/
theorem mainCycle_generic_spec (env : CycleEnv) (st : LoopState) (e : Exc)
    (ht : (tryBody env st).result = .error e) (hg : isSilent e = false) :
    (st.error_cache = genericMessage e →
       mainCycle env st =
         .ok ⟨st, (tryBody env st).logs, (tryBody env st).calls,
           [(.error, genericMessage e)], []⟩) ∧
    (st.error_cache ≠ genericMessage e →
       (∀ slogs, send_message env.send2 (genericMessage e) = .ok slogs →
          mainCycle env st =
            .ok ⟨{ st with error_cache := genericMessage e },
              (tryBody env st).logs, (tryBody env st).calls,
              [(.error, genericMessage e)] ++ slogs, [genericMessage e]⟩) ∧
       (∀ e2, send_message env.send2 (genericMessage e) = .error e2 →
          mainCycle env st = .error e2)) := by
  unfold mainCycle
  rw [ht]
  simp only [hg, Bool.false_eq_true, if_false]
  constructor
  · intro heq
    rw [if_neg (by simp [heq])]
  · intro hne
    rw [if_pos hne]
    constructor
    · intro slogs hsend
      rw [hsend]
    · intro e2 hsend
      rw [hsend]

/-- C5: `get_api_answer` raises a `ConnectionError` whenever the HTTP status
is not exactly 200, with a message containing both the endpoint URL and the
observed status code; on a 200 response it returns the parsed JSON body. -/
theorem c5_non200_raises_connection_error
    (code : Int) (body body2 : PyVal) (ts : Int) (h : code ≠ 200) :
    (∃ m cause, get_api_answer ts (.resp code body) =
        .error (.connectionError m cause) ∧
      strContains m ENDPOINT ∧ strContains m (toString code)) ∧
    get_api_answer ts (.resp 200 body2) = .ok body2 := by
  constructor
  · refine ⟨"Статус эндпоинта " ++ ENDPOINT ++ " отличен от 200" ++
      "Статус " ++ toString code, Option.none, ?_, ?_, ?_⟩
    · simp [get_api_answer, h]
    · exact ⟨"Статус эндпоинта ",
        " отличен от 200" ++ "Статус " ++ toString code, rfl⟩
    · refine ⟨"Статус эндпоинта " ++
        (ENDPOINT ++ (" отличен от 200" ++ "Статус ")), "", ?_⟩
      simp [String.append_assoc, String.append_empty]
  · rfl

/-- C5 witness: a 503 response yields a `ConnectionError` whose message
contains the endpoint and the digits 503, and a 200 response succeeds. -/
theorem c5_witness :
    (∃ m cause, get_api_answer 0 (.resp 503 .none) =
        .error (.connectionError m cause) ∧
      strContains m ENDPOINT ∧ strContains m (toString (503 : Int))) ∧
    get_api_answer 0 (.resp 200 (.int 1)) = .ok (.int 1) :=
  c5_non200_raises_connection_error 503 .none (.int 1) 0 (by decide)

/-- C7 fails as stated: an exception that is not a `TelegramError` raised by
the client's send operation propagates out of `send_message` unwrapped — at
this input the result is the original `KeyError`, not a `BotError`, and its
message does not mention the text being delivered. -/
theorem c7_counterexample :
    send_message (.error (Exc.keyError "boom")) "hello" =
      .error (Exc.keyError "boom") ∧
    isBotErrorExc (Exc.keyError "boom") = false :=
  ⟨rfl, rfl⟩

/-- C7 (amended): for every `TelegramError` raised by the client's send
operation, `send_message` raises a `BotError` whose message includes the
text being delivered and whose cause is the original `TelegramError`. -/
theorem c7_telegram_error_wrapped (m text : String) :
    send_message (.error (Exc.telegramError m)) text =
      .error (.botError ("Ошибка при отправке сообщения [" ++ text ++ "]")
        (Option.some (.telegramError m))) ∧
    strContains ("Ошибка при отправке сообщения [" ++ text ++ "]") text :=
  ⟨rfl, ⟨"Ошибка при отправке сообщения [", "]", rfl⟩⟩

/-- C7 witness: the amended statement at a concrete failure and text. -/
theorem c7_witness :
    send_message (.error (Exc.telegramError "down")) "hi" =
      .error (.botError ("Ошибка при отправке сообщения [" ++ "hi" ++ "]")
        (Option.some (.telegramError "down"))) ∧
    strContains ("Ошибка при отправке сообщения [" ++ "hi" ++ "]") "hi" :=
  c7_telegram_error_wrapped "down" "hi"

/-- C4 fails as stated: for a record with a valid name and an unhashable
status value (a JSON array), the membership test
`status not in HOMEWORK_STATUSES` itself raises
`TypeError: unhashable type`, not the `KeyError` the claim asserts for
every non-member status. -/
theorem c4_counterexample :
    parse_status (.dict [("homework_name", .str "hw"),
        ("status", .list [])]) =
      .error (.typeError "unhashable type: \x27list\x27") ∧
    isKeyErrorExc (.typeError "unhashable type: \x27list\x27") = false :=
  ⟨rfl, rfl⟩

/-- C4 (amended): `parse_status` raises `KeyError` when `homework_name` is
absent or empty; when the status is absent or is a hashable value outside
the closed catalog it raises `KeyError`, the message embedding the
offending status value (once the name check has passed); an unhashable
status value instead makes the membership test raise `TypeError`, which
propagates. -/
theorem c4_parse_status_key_errors (kvs : List (String × PyVal)) :
    ((dictGet kvs "homework_name" = .none ∨
        dictGet kvs "homework_name" = .str "") →
      parse_status (.dict kvs) =
        .error (.keyError "Отсутствует ключ homework_name")) ∧
    (statusInCatalog (dictGet kvs "status") = .ok false →
      ∃ m, parse_status (.dict kvs) = .error (.keyError m)) ∧
    (pyFalsy (dictGet kvs "homework_name") = false →
     statusInCatalog (dictGet kvs "status") = .ok false →
      ∃ m, parse_status (.dict kvs) = .error (.keyError m) ∧
        strContains m (pyStr (dictGet kvs "status"))) ∧
    (pyFalsy (dictGet kvs "homework_name") = false →
     ∀ e, statusInCatalog (dictGet kvs "status") = .error e →
      parse_status (.dict kvs) = .error e) := by
  refine ⟨?_, ?_, ?_, ?_⟩
  · rintro (h | h) <;> simp [parse_status, h, pyFalsy]
  · intro hstatus
    by_cases hname : pyFalsy (dictGet kvs "homework_name")
    · exact ⟨"Отсутствует ключ homework_name", by simp [parse_status, hname]⟩
    · exact ⟨"Получен неожиданный статус работы: " ++
        pyStr (dictGet kvs "status"),
        by simp [parse_status, hname, hstatus]⟩
  · intro hname hstatus
    refine ⟨"Получен неожиданный статус работы: " ++
      pyStr (dictGet kvs "status"), ?_, ?_⟩
    · simp [parse_status, hname, hstatus]
    · refine ⟨"Получен неожиданный статус работы: ", "", ?_⟩
      simp [String.append_empty]
  · intro hname e he
    simp [parse_status, hname, he]

/-- C4 witness: an empty name raises the name `KeyError`; an unknown string
status raises a `KeyError` embedding the status value; an unhashable
status propagates the `TypeError` from the membership test. -/
theorem c4_witness :
    (parse_status (.dict [("homework_name", .str "")]) =
      .error (.keyError "Отсутствует ключ homework_name")) ∧
    (∃ m, parse_status
        (.dict [("homework_name", .str "hw"), ("status", .str "unknown")]) =
        .error (.keyError m) ∧
      strContains m (pyStr (dictGet
        [("homework_name", .str "hw"), ("status", .str "unknown")]
        "status"))) ∧
    parse_status (.dict [("homework_name", .str "hw"),
        ("status", .dict [])]) =
      .error (.typeError "unhashable type: \x27dict\x27") :=
  ⟨(c4_parse_status_key_errors [("homework_name", .str "")]).1 (Or.inr rfl),
   (c4_parse_status_key_errors
     [("homework_name", .str "hw"), ("status", .str "unknown")]).2.2.1
     rfl rfl,
   (c4_parse_status_key_errors
     [("homework_name", .str "hw"), ("status", .dict [])]).2.2.2
     rfl (.typeError "unhashable type: \x27dict\x27") rfl⟩

/-- C6: for a mapping containing `current_date` whose `homeworks` value is
present but not a list, `check_response` raises `TypeError`; when the value
is a list, the list is returned unchanged. -/
theorem c6_homeworks_shape_check (kvs : List (String × PyVal)) :
    (dictContains kvs "current_date" = true →
     dictContains kvs "homeworks" = true →
     (∀ xs, dictGet kvs "homeworks" ≠ .list xs) →
      ∃ m, check_response (.dict kvs) = .error (.typeError m)) ∧
    (dictContains kvs "current_date" = true →
     ∀ xs, dictGet kvs "homeworks" = .list xs →
      check_response (.dict kvs) = .ok xs) := by
  constructor
  · intro hcd hh hnl
    refine ⟨"Ошибка в типе данных домашних заданий " ++ "Тип данных: " ++
      pyType (dictGet kvs "homeworks"), ?_⟩
    cases hv : dictGet kvs "homeworks" with
    | list xs => exact absurd hv (hnl xs)
    | str s => simp [check_response, hcd, hh, hv]
    | int n => simp [check_response, hcd, hh, hv]
    | dict d => simp [check_response, hcd, hh, hv]
    | none => simp [check_response, hcd, hh, hv]
  · intro hcd xs hxs
    have hh : dictContains kvs "homeworks" = true :=
      dictGet_ne_none_contains kvs "homeworks" (by simp [hxs])
    simp [check_response, hcd, hh, hxs]

/-- C6 witness: a string-valued `homeworks` raises `TypeError`; a list-valued
`homeworks` is returned unchanged. -/
theorem c6_witness :
    (∃ m, check_response
        (.dict [("current_date", .int 1), ("homeworks", .str "oops")]) =
        .error (.typeError m)) ∧
    check_response
        (.dict [("current_date", .int 1), ("homeworks", .list [.str "a"])]) =
      .ok [.str "a"] :=
  ⟨(c6_homeworks_shape_check
      [("current_date", .int 1), ("homeworks", .str "oops")]).1 rfl rfl
      (fun xs h => PyVal.noConfusion h),
   (c6_homeworks_shape_check
      [("current_date", .int 1), ("homeworks", .list [.str "a"])]).2 rfl
      [.str "a"] rfl⟩

/-- C2: a mapping response lacking `current_date` makes `check_response`
raise `DateError`, and the loop driver leaves the poll cursor unchanged for
the next cycle. -/
theorem c2_missing_current_date_freezes_cursor
    (kvs : List (String × PyVal)) (env : CycleEnv) (st : LoopState)
    (out : CycleOut)
    (hcd : dictContains kvs "current_date" = false)
    (hf : env.fetch = .resp 200 (.dict kvs))
    (hm : mainCycle env st = .ok out) :
    check_response (.dict kvs) =
      .error (.dateError "Ключа current_date нет в полученных данных") ∧
    out.state.current_timestamp = st.current_timestamp := by
  have hcr : check_response (.dict kvs) =
      .error (.dateError "Ключа current_date нет в полученных данных") := by
    simp [check_response, hcd]
  have ht : (tryBody env st).result =
      .error (.dateError "Ключа current_date нет в полученных данных") := by
    simp [tryBody, hf, get_api_answer, hcr]
  have hspec := mainCycle_silent_spec env st _ ht rfl
  rw [hspec] at hm
  injection hm with h
  subst h
  exact ⟨hcr, rfl⟩

/-- C2 witness: the concrete payload `c2Kvs` (no `current_date`) raises
`DateError` and the cursor stays at its previous value. -/
theorem c2_witness :
    check_response (.dict c2Kvs) =
      .error (.dateError "Ключа current_date нет в полученных данных") ∧
    c2Out.state.current_timestamp = c2St.current_timestamp :=
  c2_missing_current_date_freezes_cursor c2Kvs c2Env c2St c2Out rfl rfl rfl

/-- C8: whenever a poll cycle raises `BotError` or `DateError`, the loop
driver completes the cycle (no crash) with exactly one error-severity log,
no notifier call, and the state — cursor and error cache — untouched. -/
theorem c8_bot_date_errors_logged_only
    (env : CycleEnv) (st : LoopState) (e : Exc)
    (ht : (tryBody env st).result = .error e)
    (hs : isSilent e = true) :
    ∃ out, mainCycle env st = .ok out ∧ out.state = st ∧
      out.handlerCalls = [] ∧ out.handlerLogs = [(.error, excStr e)] :=
  ⟨_, mainCycle_silent_spec env st e ht hs, rfl, rfl, rfl⟩

/-- C8 witness: a cycle raising `DateError` is logged at error severity and
continues with the state untouched and no notification. -/
theorem c8_witness :
    ∃ out, mainCycle ⟨.resp 200 (.dict [("homeworks", .list [])]),
        .ok (), .ok ()⟩ ⟨3, "c"⟩ = .ok out ∧
      out.state = ⟨3, "c"⟩ ∧ out.handlerCalls = [] ∧
      out.handlerLogs =
        [(.error, excStr (.dateError "Ключа current_date нет в полученных данных"))] :=
  c8_bot_date_errors_logged_only
    ⟨.resp 200 (.dict [("homeworks", .list [])]), .ok (), .ok ()⟩
    ⟨3, "c"⟩ (.dateError "Ключа current_date нет в полученных данных") rfl rfl

/-- C9: the polling loop is entered exactly when all three configuration
values are present and non-empty; otherwise a critical-severity message is
logged and the loop never starts. -/
theorem c9_startup_requires_all_tokens (cfg : Config) :
    ((mainStartup cfg).1 = true ↔
      (envFalsy cfg.PRACTICUM_TOKEN = false ∧
       envFalsy cfg.TELEGRAM_TOKEN = false ∧
       envFalsy cfg.TELEGRAM_CHAT_ID = false)) ∧
    ((mainStartup cfg).1 = false →
      ∃ m, (LogLevel.critical, m) ∈ (mainStartup cfg).2) := by
  obtain ⟨p, t, c⟩ := cfg
  cases hp : envFalsy p <;> cases htk : envFalsy t <;> cases hc : envFalsy c <;>
    simp [mainStartup, check_tokens, hp, htk, hc]

/-- C9 witness: a missing API credential blocks the loop with a critical
log; a fully provisioned configuration enters the loop. -/
theorem c9_witness :
    (∃ m, (LogLevel.critical, m) ∈
      (mainStartup ⟨Option.none, Option.some "t", Option.some "c"⟩).2) ∧
    (mainStartup ⟨Option.some "p", Option.some "t", Option.some "c"⟩).1 = true :=
  ⟨(c9_startup_requires_all_tokens
      ⟨Option.none, Option.some "t", Option.some "c"⟩).2 rfl,
   ((c9_startup_requires_all_tokens
      ⟨Option.some "p", Option.some "t", Option.some "c"⟩).1).mpr
      ⟨rfl, rfl, rfl⟩⟩

/-- Reduction of `check_response` on a dict whose first entry is the
`homeworks` key. -/
theorem check_response_homeworks_head (v : PyVal)
    (rest : List (String × PyVal)) :
    check_response (.dict (("homeworks", v) :: rest)) =
      if dictContains rest "current_date" then
        (match v with
         | .list xs => .ok xs
         | v => .error (.typeError
             ("Ошибка в типе данных домашних заданий " ++
              "Тип данных: " ++ pyType v)))
      else .error (.dateError "Ключа current_date нет в полученных данных") := by
  cases hcd : dictContains rest "current_date" <;>
    simp [check_response, dictContains, dictGet, hcd]

/-- Only element 0 of the `homeworks` sequence influences the try body:
responses agreeing on everything but the tail of `homeworks` produce
identical cycle behaviour. -/
theorem tryBody_head_only (rest : List (String × PyVal)) (hw : PyVal)
    (tl tl2 : List PyVal) (st : LoopState) (s1 s2 : SendOutcome) :
    tryBody ⟨.resp 200 (.dict (("homeworks", .list (hw :: tl)) :: rest)),
      s1, s2⟩ st =
    tryBody ⟨.resp 200 (.dict (("homeworks", .list (hw :: tl2)) :: rest)),
      s1, s2⟩ st := by
  simp only [tryBody, get_api_answer]
  norm_num
  rw [check_response_homeworks_head, check_response_homeworks_head]
  cases hcd : dictContains rest "current_date" with
  | false => simp
  | true =>
      simp only [if_pos rfl, if_true]
      cases hp : parse_status hw with
      | error e => simp
      | ok text =>
          dsimp only
          cases hsd : send_message s1 text with
          | error e => rfl
          | ok slogs => simp [advanceCursor, dictGet]

/-- C3: for a record with a non-empty `homework_name` and a status in the
closed catalog, `parse_status` returns the formatted sentence embedding the
name and the exact verdict; and the loop driver's cycle consults only
element 0 of a non-empty `homeworks` sequence. -/
theorem c3_parse_status_format_and_head_only
    (kvs : List (String × PyVal)) (name s verdict : String)
    (hn : dictGet kvs "homework_name" = .str name) (hne : name ≠ "")
    (hs : dictGet kvs "status" = .str s)
    (hv : assocGet HOMEWORK_STATUSES s = Option.some verdict) :
    parse_status (.dict kvs) =
      .ok ("Изменился статус проверки работы \"" ++ name ++ "\". " ++
        verdict) ∧
    strContains
      ("Изменился статус проверки работы \"" ++ name ++ "\". " ++ verdict)
      name ∧
    strContains
      ("Изменился статус проверки работы \"" ++ name ++ "\". " ++ verdict)
      verdict ∧
    (∀ (rest : List (String × PyVal)) (hw : PyVal) (tl tl2 : List PyVal)
       (st : LoopState) (s1 s2 : SendOutcome),
       tryBody ⟨.resp 200 (.dict (("homeworks", .list (hw :: tl)) :: rest)),
         s1, s2⟩ st =
       tryBody ⟨.resp 200 (.dict (("homeworks", .list (hw :: tl2)) :: rest)),
         s1, s2⟩ st) := by
  refine ⟨?_, ?_, ?_, ?_⟩
  · simp [parse_status, hn, hs, hv, pyFalsy, statusInCatalog, verdictOf,
      hne, pyStr]
  · refine ⟨"Изменился статус проверки работы \"", "\". " ++ verdict, ?_⟩
    simp [String.append_assoc]
  · refine ⟨"Изменился статус проверки работы \"" ++ name ++ "\". ",
      "", ?_⟩
    simp [String.append_assoc, String.append_empty]
  · intro rest hw tl tl2 st s1 s2
    exact tryBody_head_only rest hw tl tl2 st s1 s2

/-- C3 witness: the concrete record `c3Kvs` (name `hw1`, status `approved`)
formats to the expected sentence containing the name and the verdict. -/
theorem c3_witness :
    parse_status (.dict c3Kvs) =
      .ok ("Изменился статус проверки работы \"" ++ "hw1" ++ "\". " ++
        "Работа проверена: ревьюеру всё понравилось. Ура!") ∧
    strContains
      ("Изменился статус проверки работы \"" ++ "hw1" ++ "\". " ++
        "Работа проверена: ревьюеру всё понравилось. Ура!") "hw1" ∧
    strContains
      ("Изменился статус проверки работы \"" ++ "hw1" ++ "\". " ++
        "Работа проверена: ревьюеру всё понравилось. Ура!")
      "Работа проверена: ревьюеру всё понравилось. Ура!" :=
  ⟨(c3_parse_status_format_and_head_only c3Kvs "hw1" "approved"
      "Работа проверена: ревьюеру всё понравилось. Ура!"
      rfl (by decide) rfl rfl).1,
   (c3_parse_status_format_and_head_only c3Kvs "hw1" "approved"
      "Работа проверена: ревьюеру всё понравилось. Ура!"
      rfl (by decide) rfl rfl).2.1,
   (c3_parse_status_format_and_head_only c3Kvs "hw1" "approved"
      "Работа проверена: ревьюеру всё понравилось. Ура!"
      rfl (by decide) rfl rfl).2.2.1⟩

/-- Case analysis of a completed cycle whose try body raised a generic
exception: either the cache already held the failure message and nothing
was sent, or it differed, the notifier call succeeded, and the cache now
holds the message. -/
theorem mainCycle_generic_cases (env : CycleEnv) (st : LoopState) (e : Exc)
    (out : CycleOut)
    (ht : (tryBody env st).result = .error e)
    (hg : isSilent e = false)
    (hm : mainCycle env st = .ok out) :
    (st.error_cache = genericMessage e ∧
       out = ⟨st, (tryBody env st).logs, (tryBody env st).calls,
         [(.error, genericMessage e)], []⟩) ∨
    (st.error_cache ≠ genericMessage e ∧ ∃ slogs,
       send_message env.send2 (genericMessage e) = .ok slogs ∧
       out = ⟨{ st with error_cache := genericMessage e },
         (tryBody env st).logs, (tryBody env st).calls,
         [(.error, genericMessage e)] ++ slogs, [genericMessage e]⟩) := by
  have hspec := mainCycle_generic_spec env st e ht hg
  by_cases hcache : st.error_cache = genericMessage e
  · left
    refine ⟨hcache, ?_⟩
    have h1 := hspec.1 hcache
    rw [h1] at hm
    injection hm with h
    exact h.symm
  · right
    refine ⟨hcache, ?_⟩
    cases hsd : send_message env.send2 (genericMessage e) with
    | ok slogs =>
        have h1 := (hspec.2 hcache).1 slogs hsd
        rw [h1] at hm
        injection hm with h
        exact ⟨slogs, rfl, h.symm⟩
    | error e2 =>
        have h1 := (hspec.2 hcache).2 e2 hsd
        rw [h1] at hm
        exact Except.noConfusion hm

/-- C10: a completed cycle leaves the poll cursor unchanged whenever the try
body raised any exception (including a `BotError` from a failed
notification of a genuine status change); the cursor can change only when
the whole try body — fetch, validation, and notification — succeeded. -/
theorem c10_cursor_advances_only_on_success
    (env : CycleEnv) (st : LoopState) (out : CycleOut)
    (hm : mainCycle env st = .ok out) :
    (∀ e, (tryBody env st).result = .error e →
       out.state.current_timestamp = st.current_timestamp) ∧
    (out.state.current_timestamp ≠ st.current_timestamp →
       (tryBody env st).result = .ok out.state) := by
  cases hres : (tryBody env st).result with
  | ok st2 =>
      have hspec := mainCycle_ok_spec env st st2 hres
      rw [hspec] at hm
      injection hm with h
      subst h
      refine ⟨?_, ?_⟩
      · intro e he
        exact Except.noConfusion he
      · intro _
        rfl
  | error e =>
      have hfrozen : out.state.current_timestamp = st.current_timestamp := by
        cases hsil : isSilent e with
        | true =>
            have hspec := mainCycle_silent_spec env st e hres hsil
            rw [hspec] at hm
            injection hm with h
            subst h
            rfl
        | false =>
            rcases mainCycle_generic_cases env st e out hres hsil hm with
              ⟨_, rfl⟩ | ⟨_, slogs, _, rfl⟩
            · rfl
            · rfl
      exact ⟨fun _ _ => hfrozen, fun hne => absurd hfrozen hne⟩

/-- C10 witness: a genuine status change whose notification delivery fails
with a `TelegramError` raises `BotError` inside the cycle and leaves the
cursor at its previous value. -/
theorem c10_witness :
    mainCycle c10Env c10St = .ok c10Out ∧
    c10Out.state.current_timestamp = c10St.current_timestamp := by
  have htry : tryBody c10Env c10St = ⟨.error c10Exc, [], [c10Text]⟩ := by
    simp [tryBody, get_api_answer, check_response, parse_status, send_message,
      dictGet, dictContains, pyFalsy, statusInCatalog, verdictOf, assocGet,
      pyStr, c10Env, c10Kvs, c3Kvs, c10Text, c10Exc, HOMEWORK_STATUSES]
  have hm : mainCycle c10Env c10St = .ok c10Out := by
    have h1 := mainCycle_silent_spec c10Env c10St c10Exc (by rw [htry]) rfl
    rw [htry] at h1
    exact h1
  exact ⟨hm, (c10_cursor_advances_only_on_success c10Env c10St c10Out hm).1
    c10Exc (by rw [htry])⟩

/-- C1: on a cycle raising a generic exception (neither `BotError` nor
`DateError`), the failure message is sent via the notifier iff it differs
from the error cache, after which the cache holds that message; hence a
consecutive cycle raising the same generic message sends nothing, and a
consecutive cycle raising a different generic message notifies again. -/
theorem c1_generic_failure_deduplication
    (env : CycleEnv) (st : LoopState) (e : Exc) (out : CycleOut)
    (ht : (tryBody env st).result = .error e)
    (hg : isSilent e = false)
    (hm : mainCycle env st = .ok out) :
    (out.handlerCalls = [genericMessage e] ↔
       st.error_cache ≠ genericMessage e) ∧
    out.state.error_cache = genericMessage e ∧
    (st.error_cache = genericMessage e →
       out.handlerCalls = [] ∧ out.state = st) ∧
    (∀ env2 e2 out2, (tryBody env2 out.state).result = .error e2 →
       isSilent e2 = false → genericMessage e2 = genericMessage e →
       mainCycle env2 out.state = .ok out2 → out2.handlerCalls = []) ∧
    (∀ env3 e3 out3, (tryBody env3 out.state).result = .error e3 →
       isSilent e3 = false → genericMessage e3 ≠ genericMessage e →
       mainCycle env3 out.state = .ok out3 →
       out3.handlerCalls = [genericMessage e3]) := by
  have hcase := mainCycle_generic_cases env st e out ht hg hm
  have hcache_out : out.state.error_cache = genericMessage e := by
    rcases hcase with ⟨hc, rfl⟩ | ⟨hc, slogs, hsd, rfl⟩
    · exact hc
    · rfl
  refine ⟨?_, hcache_out, ?_, ?_, ?_⟩
  · rcases hcase with ⟨hc, rfl⟩ | ⟨hc, slogs, hsd, rfl⟩
    · exact ⟨fun hcalls => List.noConfusion hcalls, fun hne => absurd hc hne⟩
    · exact ⟨fun _ => hc, fun _ => rfl⟩
  · intro hc
    rcases hcase with ⟨_, rfl⟩ | ⟨hne, slogs, hsd, rfl⟩
    · exact ⟨rfl, rfl⟩
    · exact absurd hc hne
  · intro env2 e2 out2 ht2 hg2 hmsg hm2
    rcases mainCycle_generic_cases env2 out.state e2 out2 ht2 hg2 hm2 with
      ⟨_, rfl⟩ | ⟨hne2, _, _, _⟩
    · rfl
    · exact absurd (hcache_out.trans hmsg.symm) hne2
  · intro env3 e3 out3 ht3 hg3 hmsg hm3
    rcases mainCycle_generic_cases env3 out.state e3 out3 ht3 hg3 hm3 with
      ⟨heq, _⟩ | ⟨_, slogs, hsd, rfl⟩
    · exact absurd (hcache_out.symm.trans heq).symm hmsg
    · rfl

/-- C1 witness: a 503 cycle from an empty cache sends the generic failure
message exactly once and the cache then holds that message. -/
theorem c1_witness :
    (c1Out.handlerCalls = [genericMessage c1Exc] ↔
       c1St.error_cache ≠ genericMessage c1Exc) ∧
    c1Out.state.error_cache = genericMessage c1Exc :=
  ⟨(c1_generic_failure_deduplication c1Env c1St c1Exc c1Out rfl rfl rfl).1,
   (c1_generic_failure_deduplication c1Env c1St c1Exc c1Out rfl rfl rfl).2.1⟩
